import Mathlib

/-!
# Verification of the NitroShare mDNS responder (`src/plugins/mdns/mdnsserver.cpp`)

A shallow embedding of the hostname-claim / conflict-resolution state machine
and the query-response logic of `MdnsServer`.  Pure record generation becomes a
Lean function; the event handlers (`onReadyRead`, `onSocketTimeout`,
`onHostnameTimeout`, `onMessageReceived`) become state-transition functions
returning the new member-variable state together with the list of observable
effects (datagram sends, multicast joins, timer restarts).  External
collaborators declared out of scope by the design (codec, OS sockets,
interface enumeration, `QHostAddress::isInSubnet`) are supplied as data in an
environment record.
-/

set_option linter.unusedVariables false

/-- Embedding of `QAbstractSocket::NetworkLayerProtocol` (the family tag that
`QHostAddress::protocol()` returns); `OtherProtocol` stands for the
`AnyIPProtocol`/`UnknownNetworkLayerProtocol` values the code never matches. -/
inductive NetworkLayerProtocol
  | IPv4Protocol
  | IPv6Protocol
  | OtherProtocol
deriving DecidableEq, Repr

/-- Embedding of `QHostAddress`: a family tag plus an abstract numeric value
standing for the raw address bits. -/
structure QHostAddress where
  protocol : NetworkLayerProtocol
  addr : Nat
deriving DecidableEq, Repr

/-- Embedding of `Mdns::Protocol` from `mdns.h` (the two-valued enum the server
uses to pick a socket). -/
inductive Mdns.Protocol
  | IPv4
  | IPv6
deriving DecidableEq, Repr

namespace Mdns

/-- Modelled from the spec: `mdns.h` is not in the visible source; `Mdns::A` is
the standard DNS type code for an IPv4 address record. -/
def A : Nat := 1

/-- Modelled from the spec: `mdns.h` is not in the visible source; `Mdns::AAAA`
is the standard DNS type code for an IPv6 address record. -/
def AAAA : Nat := 28

/-- Modelled from the spec: the fixed well-known mDNS UDP port from `mdns.h`. -/
def Port : Nat := 5353

/-- Modelled from the spec: the IPv4 multicast group address `224.0.0.251`
from `mdns.h`. -/
def Ipv4Address : QHostAddress :=
  { protocol := NetworkLayerProtocol.IPv4Protocol, addr := 0xE00000FB }

/-- Modelled from the spec: the IPv6 multicast group address `ff02::fb`
from `mdns.h`. -/
def Ipv6Address : QHostAddress :=
  { protocol := NetworkLayerProtocol.IPv6Protocol,
    addr := 0xFF0200000000000000000000000000FB }

end Mdns

/-- Embedding of `const quint32 DefaultTtl = 60 * 60;` (mdnsserver.cpp line 41). -/
def DefaultTtl : Nat := 60 * 60

/-- Embedding of `MdnsQuery` as consumed through its accessors: a name and a
record type. -/
structure MdnsQuery where
  name : String
  type : Nat
deriving DecidableEq, Repr

/-- Embedding of `MdnsRecord` as consumed through its accessors: name, type,
ttl and address. -/
structure MdnsRecord where
  name : String
  type : Nat
  ttl : Nat
  address : QHostAddress
deriving DecidableEq, Repr

/-- Embedding of `MdnsMessage` as consumed through its accessors: the
response flag, the ordered queries and records, and the source/destination
address, protocol and port set by the server. -/
structure MdnsMessage where
  isResponse : Bool
  queries : List MdnsQuery
  records : List MdnsRecord
  address : QHostAddress
  protocol : Mdns.Protocol
  port : Nat
deriving DecidableEq, Repr

/-- Modelled from the spec: a default-constructed `MdnsMessage` (the message
type lives in the out-of-scope codec layer) is a query message with no
queries and no records — probes are "query-only message[s] with no answer
section". -/
def MdnsMessage.mk0 : MdnsMessage :=
  { isResponse := false, queries := [], records := [],
    address := { protocol := NetworkLayerProtocol.OtherProtocol, addr := 0 },
    protocol := Mdns.Protocol.IPv4, port := 0 }

/-- Modelled from the spec: `MdnsMessage::reply()` builds the reply envelope
from the request — a response message with no queries or records yet,
addressed back using the request's source address, protocol and port. -/
def MdnsMessage.reply (m : MdnsMessage) : MdnsMessage :=
  { isResponse := true, queries := [], records := [],
    address := m.address, protocol := m.protocol, port := m.port }

/-- Embedding of `QNetworkAddressEntry`: the bound IP together with its
subnet prefix length. -/
structure QNetworkAddressEntry where
  ip : QHostAddress
  prefixLength : Int
deriving DecidableEq, Repr

/-- Embedding of `QNetworkInterface` as consumed by the server:
`flags() & QNetworkInterface::CanMulticast` as a boolean, the address
entries, and `allAddresses()`. -/
structure QNetworkInterface where
  canMulticast : Bool
  addressEntries : List QNetworkAddressEntry
  allAddresses : List QHostAddress
deriving DecidableEq, Repr

/-- The environment of external collaborators: the interface snapshot
(`QNetworkInterface::allInterfaces()`), the subnet-containment test
(`QHostAddress::isInSubnet`), the machine name (`QHostInfo::localHostName()`),
and the outcome of each family's bind attempt. -/
structure Env where
  allInterfaces : List QNetworkInterface
  isInSubnet : QHostAddress → QHostAddress → Int → Bool
  localHostName : String
  ipv4BindSucceeds : Bool
  ipv6BindSucceeds : Bool

/-- The member-variable state of `MdnsServer` (hostname, suffix, confirmed
flag, and the bound state of the two UDP sockets). -/
structure ServerState where
  mHostname : String
  mHostnameSuffix : Nat
  mHostnameConfirmed : Bool
  mIpv4Bound : Bool
  mIpv6Bound : Bool
deriving DecidableEq, Repr

/-- Observable side effects of a handler invocation: a datagram written to one
of the two sockets, a multicast-group join, or a single-shot timer restart. -/
inductive Effect
  | send (socket : Mdns.Protocol) (message : MdnsMessage)
  | joinMulticastGroup (group : QHostAddress) (iface : QNetworkInterface)
  | startHostnameTimer (msec : Nat)
  | startSocketTimer (msec : Nat)
deriving DecidableEq, Repr

/-- The test in `MdnsServer::generateRecord` (lines 89-90): does an interface
address match the requested record type (IPv4 for `A`, IPv6 for `AAAA`)? -/
def familyMatches (address : QHostAddress) (type : Nat) : Bool :=
  (address.protocol == NetworkLayerProtocol.IPv4Protocol && type == Mdns.A) ||
  (address.protocol == NetworkLayerProtocol.IPv6Protocol && type == Mdns.AAAA)

/-- The interface loop of `MdnsServer::generateRecord` (lines 82-101): for
each interface, find the first address entry whose subnet contains the
querier; on such an entry scan `allAddresses()` for a family match and on
success build the record from the entry's IP; the inner `break` moves on to
the next interface. -/
def MdnsServer.generateRecordLoop (env : Env) (hostname : String)
    (address : QHostAddress) (type : Nat) :
    List QNetworkInterface → Option MdnsRecord
  | [] => none
  | iface :: rest =>
    match iface.addressEntries.find?
        (fun entry => env.isInSubnet address entry.ip entry.prefixLength) with
    | some entry =>
      if iface.allAddresses.any (fun a => familyMatches a type) then
        some { name := hostname, type := type, ttl := DefaultTtl,
               address := entry.ip }
      else
        MdnsServer.generateRecordLoop env hostname address type rest
    | none => MdnsServer.generateRecordLoop env hostname address type rest

/-- Embedding of `MdnsServer::generateRecord` (lines 79-103): `some record`
for `return true`, `none` for `return false`. -/
def MdnsServer.generateRecord (env : Env) (hostname : String)
    (address : QHostAddress) (type : Nat) : Option MdnsRecord :=
  MdnsServer.generateRecordLoop env hostname address type env.allInterfaces

/-- Embedding of `MdnsServer::sendMessage` (lines 67-77): the packet goes out
on the socket matching the message's protocol. -/
def MdnsServer.sendMessage (message : MdnsMessage) : List Effect :=
  (if message.protocol = Mdns.Protocol.IPv4
    then [Effect.send Mdns.Protocol.IPv4 message] else []) ++
  (if message.protocol = Mdns.Protocol.IPv6
    then [Effect.send Mdns.Protocol.IPv6 message] else [])

/-- Embedding of `MdnsServer::checkHostname` (lines 252-266): build a
query-only probe for the current hostname (type `A` for IPv4, `AAAA` for
IPv6), addressed to the family's multicast group on the mDNS port, and send
it. -/
def MdnsServer.checkHostname (hostname : String) (protocol : Mdns.Protocol) :
    List Effect :=
  let query : MdnsQuery :=
    { name := hostname,
      type := if protocol = Mdns.Protocol.IPv4 then Mdns.A else Mdns.AAAA }
  let message : MdnsMessage :=
    { MdnsMessage.mk0 with
      address := if protocol = Mdns.Protocol.IPv4
        then Mdns.Ipv4Address else Mdns.Ipv6Address,
      protocol := protocol,
      port := Mdns.Port,
      queries := [query] }
  MdnsServer.sendMessage message

/-- The pair of calls `checkHostname(IPv4); checkHostname(IPv6)` that the
server issues whenever it (re)probes a candidate hostname (lines 140-141 and
186-187). -/
def probeRound (hostname : String) : List Effect :=
  MdnsServer.checkHostname hostname Mdns.Protocol.IPv4 ++
  MdnsServer.checkHostname hostname Mdns.Protocol.IPv6

/-- The per-interface body of the multicast-join loop in
`MdnsServer::onSocketTimeout` (lines 120-133): for a multicast-capable
interface, compute whether it owns an IPv4 and an IPv6 address, then join the
IPv4 group when the IPv4 socket is bound and `ipv6Address` holds, and the
IPv6 group when the IPv6 socket is bound and `ipv6Address` holds (the
`ipv4Address` flag is computed on line 124 but never read). -/
def MdnsServer.interfaceJoinEffects (ipv4Bound ipv6Bound : Bool)
    (iface : QNetworkInterface) : List Effect :=
  if iface.canMulticast then
    let ipv4Address := iface.allAddresses.any
      (fun a => a.protocol == NetworkLayerProtocol.IPv4Protocol)
    let ipv6Address := iface.allAddresses.any
      (fun a => a.protocol == NetworkLayerProtocol.IPv6Protocol)
    (if ipv4Bound && ipv6Address
      then [Effect.joinMulticastGroup Mdns.Ipv4Address iface] else []) ++
    (if ipv6Bound && ipv6Address
      then [Effect.joinMulticastGroup Mdns.Ipv6Address iface] else [])
  else []

/-- The multicast-join loop of `MdnsServer::onSocketTimeout` (lines 119-134)
over the whole interface snapshot. -/
def MdnsServer.joinEffects (ipv4Bound ipv6Bound : Bool) :
    List QNetworkInterface → List Effect
  | [] => []
  | iface :: rest =>
    MdnsServer.interfaceJoinEffects ipv4Bound ipv6Bound iface ++
      MdnsServer.joinEffects ipv4Bound ipv6Bound rest

/-- Embedding of `MdnsServer::onSocketTimeout` (lines 105-148): attempt to
bind each unbound socket; if either socket is bound, join multicast groups
on every interface and, while the hostname is unconfirmed, reset the
candidate to `<localname>.local.`, reset the suffix to 2, send both probes
and start the 2 s hostname timer; finally restart the 60 s socket timer. -/
def MdnsServer.onSocketTimeout (env : Env) (s : ServerState) :
    ServerState × List Effect :=
  let ipv4Bound := s.mIpv4Bound || env.ipv4BindSucceeds
  let ipv6Bound := s.mIpv6Bound || env.ipv6BindSucceeds
  let s1 : ServerState := { s with mIpv4Bound := ipv4Bound, mIpv6Bound := ipv6Bound }
  if ipv4Bound || ipv6Bound then
    let joins := MdnsServer.joinEffects ipv4Bound ipv6Bound env.allInterfaces
    if !s1.mHostnameConfirmed then
      let hostname := env.localHostName ++ ".local."
      ({ s1 with mHostname := hostname, mHostnameSuffix := 2 },
        joins ++ probeRound hostname ++
          [Effect.startHostnameTimer (2 * 1000),
           Effect.startSocketTimer (60 * 1000)])
    else
      (s1, joins ++ [Effect.startSocketTimer (60 * 1000)])
  else
    (s1, [Effect.startSocketTimer (60 * 1000)])

/-- Embedding of `MdnsServer::onHostnameTimeout` (lines 150-154): the probe
window elapsed with no conflict, so the hostname is confirmed. -/
def MdnsServer.onHostnameTimeout (s : ServerState) : ServerState × List Effect :=
  ({ s with mHostnameConfirmed := true }, [])

/-- The record test of the conflict scan in `MdnsServer::onReadyRead`
(lines 182-183): type `A` or `AAAA`, name equal to the current candidate,
and a nonzero TTL. -/
def conflictRecord (hostname : String) (record : MdnsRecord) : Bool :=
  (record.type == Mdns.A || record.type == Mdns.AAAA) &&
    record.name == hostname && record.ttl != 0

/-- A message disqualifies the current candidate hostname exactly when it is
a response containing at least one `conflictRecord` (lines 180-190); the
`break` makes any record past the first match irrelevant. -/
def isConflict (hostname : String) (message : MdnsMessage) : Bool :=
  message.isResponse && message.records.any (conflictRecord hostname)

/-- Embedding of `MdnsServer::onMessageReceived` (lines 196-228): for a
non-response message, scan the queries for the confirmed hostname with type
`A` and with type `AAAA`; if either matched, build the reply envelope,
append whichever record generations succeed, and send the reply only when it
holds at least one record.  The handler mutates no member state, so only the
effects are returned. -/
def MdnsServer.onMessageReceived (env : Env) (s : ServerState)
    (message : MdnsMessage) : List Effect :=
  if !message.isResponse then
    let queryA := message.queries.any
      (fun q => q.name == s.mHostname && q.type == Mdns.A)
    let queryAAAA := message.queries.any
      (fun q => q.name == s.mHostname && q.type == Mdns.AAAA)
    if queryA || queryAAAA then
      let ipv4Record := if queryA
        then MdnsServer.generateRecord env s.mHostname message.address Mdns.A
        else none
      let ipv6Record := if queryAAAA
        then MdnsServer.generateRecord env s.mHostname message.address Mdns.AAAA
        else none
      let reply := { MdnsMessage.reply message with
        records := ipv4Record.toList ++ ipv6Record.toList }
      if reply.records.length != 0 then MdnsServer.sendMessage reply else []
    else []
  else []

/-- Embedding of `MdnsServer::onReadyRead` (lines 156-194) after a successful
decode: tag the message with the datagram's source address, the protocol
derived from that address's family, and the source port; then either emit it
to `onMessageReceived` (hostname confirmed) or run the conflict scan
(probing), where a conflict renames the candidate to
`<localname>-<suffix>.local.`, post-increments the suffix and re-sends both
probes. -/
def MdnsServer.onReadyRead (env : Env) (s : ServerState)
    (message : MdnsMessage) (address : QHostAddress) (port : Nat) :
    ServerState × List Effect :=
  let message := { message with
    address := address,
    protocol := if address.protocol == NetworkLayerProtocol.IPv4Protocol
      then Mdns.Protocol.IPv4 else Mdns.Protocol.IPv6,
    port := port }
  if s.mHostnameConfirmed then
    (s, MdnsServer.onMessageReceived env s message)
  else if isConflict s.mHostname message then
    let hostname :=
      env.localHostName ++ "-" ++ toString s.mHostnameSuffix ++ ".local."
    ({ s with mHostname := hostname, mHostnameSuffix := s.mHostnameSuffix + 1 },
      probeRound hostname)
  else
    (s, [])

/-- The events that can reach the server's handlers: an inbound datagram that
decoded successfully (with its source address and port), an inbound datagram
that failed to decode (silently dropped, line 168), and the two timers. -/
inductive Event
  | inboundDatagram (message : MdnsMessage) (address : QHostAddress) (port : Nat)
  | decodeFailure
  | hostnameTimeout
  | socketTimeout
deriving DecidableEq, Repr

/-- One reactor step of the server: dispatch an event to its handler. -/
def MdnsServer.step (env : Env) (s : ServerState) : Event → ServerState × List Effect
  | Event.inboundDatagram m a p => MdnsServer.onReadyRead env s m a p
  | Event.decodeFailure => (s, [])
  | Event.hostnameTimeout => MdnsServer.onHostnameTimeout s
  | Event.socketTimeout => MdnsServer.onSocketTimeout env s

/-- The state reached after a sequence of decoded inbound datagrams, with no
intervening timer events. -/
def MdnsServer.processDatagrams (env : Env) (s : ServerState) :
    List (MdnsMessage × QHostAddress × Nat) → ServerState
  | [] => s
  | (m, a, p) :: rest =>
    MdnsServer.processDatagrams env (MdnsServer.onReadyRead env s m a p).1 rest

/-- Every datagram in the list is a conflict for the candidate hostname
current at the moment it is processed. -/
def allConflicts (env : Env) (s : ServerState) :
    List (MdnsMessage × QHostAddress × Nat) → Bool
  | [] => true
  | (m, a, p) :: rest =>
    isConflict s.mHostname m &&
      allConflicts env (MdnsServer.onReadyRead env s m a p).1 rest

/-- The first interface in the enumeration order owning an address entry
whose subnet contains the given address — the interface the spec calls "the
matched interface". -/
def firstSubnetInterface (env : Env) (address : QHostAddress) :
    Option QNetworkInterface :=
  env.allInterfaces.find? (fun iface => iface.addressEntries.any
    (fun entry => env.isInSubnet address entry.ip entry.prefixLength))

/- Concrete inputs used by counterexamples and witnesses. -/

/-- A sample IPv4 querier address. -/
def exAddr4 : QHostAddress :=
  { protocol := NetworkLayerProtocol.IPv4Protocol, addr := 100 }

/-- A sample environment with no interfaces; the subnet test compares the raw
address values. -/
def exEnvEmpty : Env :=
  { allInterfaces := [],
    isInSubnet := fun a ip _ => a.addr == ip.addr,
    localHostName := "laptop",
    ipv4BindSucceeds := true, ipv6BindSucceeds := true }

/-- The probing state right after the first rebind cycle picked the initial
candidate. -/
def exProbing : ServerState :=
  { mHostname := "laptop.local.", mHostnameSuffix := 2,
    mHostnameConfirmed := false, mIpv4Bound := true, mIpv6Bound := false }

/-- A state whose hostname has been confirmed. -/
def exConfirmed : ServerState :=
  { mHostname := "laptop.local.", mHostnameSuffix := 2,
    mHostnameConfirmed := true, mIpv4Bound := true, mIpv6Bound := true }

/-- A conflicting response for the initial candidate `laptop.local.`. -/
def exConflictMsg1 : MdnsMessage :=
  { isResponse := true, queries := [],
    records := [{ name := "laptop.local.", type := Mdns.A, ttl := 120,
                  address := { protocol := NetworkLayerProtocol.IPv4Protocol,
                               addr := 9 } }],
    address := exAddr4, protocol := Mdns.Protocol.IPv4, port := 5353 }

/-- A conflicting response for the renamed candidate `laptop-2.local.`,
carrying two disqualifying records. -/
def exConflictMsg2 : MdnsMessage :=
  { isResponse := true, queries := [],
    records := [{ name := "laptop-2.local.", type := Mdns.A, ttl := 120,
                  address := { protocol := NetworkLayerProtocol.IPv4Protocol,
                               addr := 9 } },
                { name := "laptop-2.local.", type := Mdns.AAAA, ttl := 50,
                  address := { protocol := NetworkLayerProtocol.IPv6Protocol,
                               addr := 9 } }],
    address := exAddr4, protocol := Mdns.Protocol.IPv4, port := 5353 }

/-- Two back-to-back conflict datagrams. -/
def exConflicts : List (MdnsMessage × QHostAddress × Nat) :=
  [(exConflictMsg1, exAddr4, 5353), (exConflictMsg2, exAddr4, 5353)]

/-- An interface whose address entry's subnet contains `exAddr4` but whose
bound addresses include no IPv4 address. -/
def exIfaceNoV4 : QNetworkInterface :=
  { canMulticast := true,
    addressEntries := [{ ip := { protocol := NetworkLayerProtocol.IPv4Protocol,
                                 addr := 100 }, prefixLength := 24 }],
    allAddresses := [{ protocol := NetworkLayerProtocol.IPv6Protocol,
                       addr := 1 }] }

/-- An interface whose address entry's subnet contains `exAddr4` and which
owns an IPv4 address. -/
def exIfaceV4 : QNetworkInterface :=
  { canMulticast := true,
    addressEntries := [{ ip := { protocol := NetworkLayerProtocol.IPv4Protocol,
                                 addr := 100 }, prefixLength := 24 }],
    allAddresses := [{ protocol := NetworkLayerProtocol.IPv4Protocol,
                       addr := 5 }] }

/-- A multicast-capable interface owning only an IPv4 address. -/
def exIfaceV4only : QNetworkInterface :=
  { canMulticast := true, addressEntries := [],
    allAddresses := [{ protocol := NetworkLayerProtocol.IPv4Protocol,
                       addr := 7 }] }

/-- Environment whose interface list puts the family-less interface before
the usable one. -/
def exEnvTwoIfaces : Env := { exEnvEmpty with allInterfaces := [exIfaceNoV4, exIfaceV4] }

/-- Environment holding just the usable interface. -/
def exEnvOneIface : Env := { exEnvEmpty with allInterfaces := [exIfaceV4] }

/-- The record `generateRecord` builds for `exAddr4` / type `A` in
`exEnvOneIface`. -/
def exRecord : MdnsRecord :=
  { name := "laptop.local.", type := Mdns.A, ttl := DefaultTtl,
    address := { protocol := NetworkLayerProtocol.IPv4Protocol, addr := 100 } }

/-- A query message asking for the A record of `laptop.local.`. -/
def exQueryMsg : MdnsMessage :=
  { isResponse := false,
    queries := [{ name := "laptop.local.", type := Mdns.A }],
    records := [], address := exAddr4, protocol := Mdns.Protocol.IPv4,
    port := 5353 }

/-! ## Helper lemmas -/

/-- The two multicast group constants differ. -/
theorem ipv4Address_ne_ipv6Address : Mdns.Ipv4Address ≠ Mdns.Ipv6Address := by
  decide

/-- `sendMessage` always writes exactly one datagram, on the socket matching
the message's protocol. -/
theorem sendMessage_ne_nil (m : MdnsMessage) : MdnsServer.sendMessage m ≠ [] := by
  cases h : m.protocol <;> simp [MdnsServer.sendMessage, h]

/-- A probe round is exactly one A query on the IPv4 socket to the IPv4
group followed by one AAAA query on the IPv6 socket to the IPv6 group. -/
theorem probeRound_eq (hostname : String) :
    probeRound hostname =
      [Effect.send Mdns.Protocol.IPv4
        { isResponse := false,
          queries := [{ name := hostname, type := Mdns.A }],
          records := [], address := Mdns.Ipv4Address,
          protocol := Mdns.Protocol.IPv4, port := Mdns.Port },
       Effect.send Mdns.Protocol.IPv6
        { isResponse := false,
          queries := [{ name := hostname, type := Mdns.AAAA }],
          records := [], address := Mdns.Ipv6Address,
          protocol := Mdns.Protocol.IPv6, port := Mdns.Port }] := rfl

/-- A probe round never restarts a timer. -/
theorem probeRound_no_timer (hostname : String) (msec : Nat) :
    Effect.startHostnameTimer msec ∉ probeRound hostname := by
  simp [probeRound_eq]

/-! ## Claims -/

/-- C9.  Every probe round sends exactly two query-only messages (empty
record section): an A query for the candidate name to the IPv4 multicast
group on the IPv4 socket and an AAAA query for the candidate name to the
IPv6 multicast group on the IPv6 socket, the pair covering both protocol
sockets, each on the mDNS port. -/
theorem C9_probe_round_sends_two_query_only_messages (hostname : String) :
    probeRound hostname =
      [Effect.send Mdns.Protocol.IPv4
        { isResponse := false,
          queries := [{ name := hostname, type := Mdns.A }],
          records := [], address := Mdns.Ipv4Address,
          protocol := Mdns.Protocol.IPv4, port := Mdns.Port },
       Effect.send Mdns.Protocol.IPv6
        { isResponse := false,
          queries := [{ name := hostname, type := Mdns.AAAA }],
          records := [], address := Mdns.Ipv6Address,
          protocol := Mdns.Protocol.IPv6, port := Mdns.Port }] := rfl

/-- C2.  Once the confirmed flag is true, no handler invocation (inbound
datagram, decode failure, probe timer, rebind timer) ever changes the
hostname. -/
theorem C2_confirmed_hostname_immutable (env : Env) (s : ServerState)
    (e : Event) (h : s.mHostnameConfirmed = true) :
    (MdnsServer.step env s e).1.mHostname = s.mHostname := by
  cases e with
  | inboundDatagram m a p =>
    simp [MdnsServer.step, MdnsServer.onReadyRead, h]
  | decodeFailure => rfl
  | hostnameTimeout => rfl
  | socketTimeout =>
    simp only [MdnsServer.step, MdnsServer.onSocketTimeout, h]
    split
    · simp
    · rfl

/-- Witness for C2 at a concrete confirmed state and a conflicting-looking
datagram. -/
theorem C2_witness :
    exConfirmed.mHostnameConfirmed = true ∧
    (MdnsServer.step exEnvEmpty exConfirmed
        (Event.inboundDatagram exConflictMsg1 exAddr4 5353)).1.mHostname =
      exConfirmed.mHostname :=
  ⟨rfl, C2_confirmed_hostname_immutable exEnvEmpty exConfirmed
    (Event.inboundDatagram exConflictMsg1 exAddr4 5353) rfl⟩

/-- C8.  While probing, a datagram that is not a conflict — not a response,
or carrying no record of type A/AAAA whose name equals the current candidate
with nonzero TTL — leaves the entire member state unchanged. -/
theorem C8_non_conflict_leaves_state_unchanged (env : Env) (s : ServerState)
    (m : MdnsMessage) (a : QHostAddress) (p : Nat)
    (h0 : s.mHostnameConfirmed = false)
    (h1 : isConflict s.mHostname m = false) :
    (MdnsServer.step env s (Event.inboundDatagram m a p)).1 = s := by
  have htag : ∀ pr : Mdns.Protocol, isConflict s.mHostname
      { m with address := a, protocol := pr, port := p } =
        isConflict s.mHostname m := fun pr => rfl
  simp [MdnsServer.step, MdnsServer.onReadyRead, h0, htag, h1]

/-- Witness for C8: a zero-TTL record matching the candidate does not rename
it. -/
theorem C8_witness :
    exProbing.mHostnameConfirmed = false ∧
    isConflict exProbing.mHostname
      { exConflictMsg1 with
        records := [{ name := "laptop.local.", type := Mdns.A, ttl := 0,
                      address := exAddr4 }] } = false ∧
    (MdnsServer.step exEnvEmpty exProbing
      (Event.inboundDatagram
        { exConflictMsg1 with
          records := [{ name := "laptop.local.", type := Mdns.A, ttl := 0,
                        address := exAddr4 }] } exAddr4 5353)).1 = exProbing :=
  ⟨rfl, by decide,
    C8_non_conflict_leaves_state_unchanged exEnvEmpty exProbing
      { exConflictMsg1 with
        records := [{ name := "laptop.local.", type := Mdns.A, ttl := 0,
                      address := exAddr4 }] } exAddr4 5353 rfl (by decide)⟩

/-- C3 counterexample.  At a concrete conflicting response received while
probing, the handler renames the candidate and re-sends both probes but does
not restart the 2 s probe timer, refuting the claim that every conflict
restarts it. -/
theorem C3_counterexample :
    exProbing.mHostnameConfirmed = false ∧
    isConflict exProbing.mHostname exConflictMsg1 = true ∧
    (MdnsServer.step exEnvEmpty exProbing
        (Event.inboundDatagram exConflictMsg1 exAddr4 5353)).1.mHostname =
      "laptop-2.local." ∧
    Effect.startHostnameTimer (2 * 1000) ∉
      (MdnsServer.step exEnvEmpty exProbing
        (Event.inboundDatagram exConflictMsg1 exAddr4 5353)).2 := by
  refine ⟨rfl, by decide, by decide, ?_⟩
  decide

/-- C3 amended.  On every conflict detected while probing, the handler sets
the new candidate name and re-sends both probes, but does not restart the
2 s probe timer: the effects are exactly the probe round for the new name,
with no timer restart of any duration. -/
theorem C3_amended_conflict_resends_probes_without_timer (env : Env)
    (s : ServerState) (m : MdnsMessage) (a : QHostAddress) (p : Nat)
    (h0 : s.mHostnameConfirmed = false)
    (h1 : isConflict s.mHostname m = true) :
    (MdnsServer.step env s (Event.inboundDatagram m a p)).1.mHostname =
      env.localHostName ++ "-" ++ toString s.mHostnameSuffix ++ ".local." ∧
    (MdnsServer.step env s (Event.inboundDatagram m a p)).1.mHostnameSuffix =
      s.mHostnameSuffix + 1 ∧
    (MdnsServer.step env s (Event.inboundDatagram m a p)).2 =
      probeRound
        (env.localHostName ++ "-" ++ toString s.mHostnameSuffix ++ ".local.") ∧
    ∀ msec, Effect.startHostnameTimer msec ∉
      (MdnsServer.step env s (Event.inboundDatagram m a p)).2 := by
  have htag : ∀ pr : Mdns.Protocol, isConflict s.mHostname
      { m with address := a, protocol := pr, port := p } =
        isConflict s.mHostname m := fun pr => rfl
  refine ⟨?_, ?_, ?_, ?_⟩ <;>
    simp [MdnsServer.step, MdnsServer.onReadyRead, h0, htag, h1,
      probeRound_no_timer]

/-- Witness for the amended C3 at a concrete conflict. -/
theorem C3_witness :
    exProbing.mHostnameConfirmed = false ∧
    isConflict exProbing.mHostname exConflictMsg1 = true ∧
    (MdnsServer.step exEnvEmpty exProbing
        (Event.inboundDatagram exConflictMsg1 exAddr4 5353)).2 =
      probeRound ("laptop" ++ "-" ++ toString exProbing.mHostnameSuffix ++
        ".local.") :=
  ⟨rfl, by decide,
    (C3_amended_conflict_resends_probes_without_timer exEnvEmpty exProbing
      exConflictMsg1 exAddr4 5353 rfl (by decide)).2.2.1⟩

/-- Membership of an IPv4-group join in the per-interface join effects:
it requires the IPv4 socket bound and the interface to own an IPv6
address. -/
theorem mem_interfaceJoinEffects_v4 (b4 b6 : Bool) (i iface : QNetworkInterface) :
    (Effect.joinMulticastGroup Mdns.Ipv4Address iface ∈
        MdnsServer.interfaceJoinEffects b4 b6 i) ↔
      (i = iface ∧ i.canMulticast = true ∧ b4 = true ∧
        i.allAddresses.any
          (fun a => a.protocol == NetworkLayerProtocol.IPv6Protocol) = true) := by
  by_cases hm : i.canMulticast <;>
    by_cases h6 : i.allAddresses.any
      (fun a => a.protocol == NetworkLayerProtocol.IPv6Protocol) = true <;>
    cases b4 <;>
    simp [MdnsServer.interfaceJoinEffects, hm, h6, ipv4Address_ne_ipv6Address,
      eq_comm]

/-- Membership of an IPv6-group join in the per-interface join effects:
it requires the IPv6 socket bound and — as the code is written — the
interface to own an IPv6 (not IPv4) address. -/
theorem mem_interfaceJoinEffects_v6 (b4 b6 : Bool) (i iface : QNetworkInterface) :
    (Effect.joinMulticastGroup Mdns.Ipv6Address iface ∈
        MdnsServer.interfaceJoinEffects b4 b6 i) ↔
      (i = iface ∧ i.canMulticast = true ∧ b6 = true ∧
        i.allAddresses.any
          (fun a => a.protocol == NetworkLayerProtocol.IPv6Protocol) = true) := by
  by_cases hm : i.canMulticast <;>
    by_cases h6 : i.allAddresses.any
      (fun a => a.protocol == NetworkLayerProtocol.IPv6Protocol) = true <;>
    cases b6 <;>
    simp [MdnsServer.interfaceJoinEffects, hm, h6, ipv4Address_ne_ipv6Address,
      ipv4Address_ne_ipv6Address.symm, eq_comm]

/-- C5 counterexample.  A multicast-capable interface owning an IPv4 address
but no IPv6 address: with both sockets bound, the code joins no IPv6
multicast group on it, refuting the claimed symmetric cross-family gating
(IPv6 group joined when the interface has an IPv4 address). -/
theorem C5_counterexample :
    exIfaceV4only.canMulticast = true ∧
    exIfaceV4only.allAddresses.any
      (fun a => a.protocol == NetworkLayerProtocol.IPv4Protocol) = true ∧
    Effect.joinMulticastGroup Mdns.Ipv6Address exIfaceV4only ∉
      MdnsServer.joinEffects true true [exIfaceV4only] := by
  refine ⟨rfl, by decide, ?_⟩
  decide

/-- C5 amended.  During a rebind cycle, for every interface in the snapshot:
the IPv4 multicast group is joined on it exactly when the interface is
multicast-capable, the IPv4 socket is bound and the interface has an IPv6
address; and the IPv6 multicast group is joined on it exactly when the
interface is multicast-capable, the IPv6 socket is bound and the interface
has an IPv6 address — the gating for both families reads the IPv6-address
flag, and the IPv4-address flag is computed but unused. -/
theorem C5_amended_join_gating (b4 b6 : Bool)
    (ifaces : List QNetworkInterface) (iface : QNetworkInterface) :
    ((Effect.joinMulticastGroup Mdns.Ipv4Address iface ∈
        MdnsServer.joinEffects b4 b6 ifaces) ↔
      (iface ∈ ifaces ∧ iface.canMulticast = true ∧ b4 = true ∧
        iface.allAddresses.any
          (fun a => a.protocol == NetworkLayerProtocol.IPv6Protocol) = true)) ∧
    ((Effect.joinMulticastGroup Mdns.Ipv6Address iface ∈
        MdnsServer.joinEffects b4 b6 ifaces) ↔
      (iface ∈ ifaces ∧ iface.canMulticast = true ∧ b6 = true ∧
        iface.allAddresses.any
          (fun a => a.protocol == NetworkLayerProtocol.IPv6Protocol) = true)) := by
  induction ifaces with
  | nil => simp [MdnsServer.joinEffects]
  | cons i rest ih =>
    constructor
    · simp only [MdnsServer.joinEffects, List.mem_append, List.mem_cons,
        mem_interfaceJoinEffects_v4, ih.1]
      constructor
      · rintro (⟨hi, h⟩ | ⟨hi, h⟩)
        · exact ⟨Or.inl hi.symm, hi ▸ h⟩
        · exact ⟨Or.inr hi, h⟩
      · rintro ⟨hi | hi, h⟩
        · exact Or.inl ⟨hi.symm, hi ▸ h⟩
        · exact Or.inr ⟨hi, h⟩
    · simp only [MdnsServer.joinEffects, List.mem_append, List.mem_cons,
        mem_interfaceJoinEffects_v6, ih.2]
      constructor
      · rintro (⟨hi, h⟩ | ⟨hi, h⟩)
        · exact ⟨Or.inl hi.symm, hi ▸ h⟩
        · exact ⟨Or.inr hi, h⟩
      · rintro ⟨hi | hi, h⟩
        · exact Or.inl ⟨hi.symm, hi ▸ h⟩
        · exact Or.inr ⟨hi, h⟩

/-- C4 counterexample.  With two interfaces whose entries both contain the
querier but where only the second owns an IPv4 address, the first matched
interface has no address of the requested family and yet record generation
succeeds — the search continues on other interfaces, refuting the claimed
immediate failure. -/
theorem C4_counterexample :
    firstSubnetInterface exEnvTwoIfaces exAddr4 = some exIfaceNoV4 ∧
    exIfaceNoV4.allAddresses.any (fun a => familyMatches a Mdns.A) = false ∧
    MdnsServer.generateRecord exEnvTwoIfaces "laptop.local." exAddr4 Mdns.A =
      some { name := "laptop.local.", type := Mdns.A, ttl := DefaultTtl,
             address := { protocol := NetworkLayerProtocol.IPv4Protocol,
                          addr := 100 } } := by
  refine ⟨by decide, by decide, ?_⟩
  decide

/-- C4 amended.  When an interface owning a subnet-matching address entry has
no bound address of the requested family, that interface contributes no
record and the search continues with the remaining interfaces (generation
fails overall only when every interface fails). -/
theorem C4_amended_search_continues (env : Env) (hostname : String)
    (address : QHostAddress) (type : Nat) (iface : QNetworkInterface)
    (rest : List QNetworkInterface)
    (hmatch : iface.addressEntries.any
      (fun entry => env.isInSubnet address entry.ip entry.prefixLength) = true)
    (hnofam : iface.allAddresses.any (fun a => familyMatches a type) = false) :
    MdnsServer.generateRecordLoop env hostname address type (iface :: rest) =
      MdnsServer.generateRecordLoop env hostname address type rest := by
  cases hfind : iface.addressEntries.find?
      (fun entry => env.isInSubnet address entry.ip entry.prefixLength) with
  | none =>
    rcases List.any_eq_true.mp hmatch with ⟨entry, hmem, hp⟩
    exact absurd hp (List.find?_eq_none.mp hfind entry hmem)
  | some entry =>
    simp [MdnsServer.generateRecordLoop, hfind, hnofam]

/-- Witness for the amended C4: skipping the concrete family-less interface
leaves exactly the search over the remaining interface. -/
theorem C4_witness :
    exIfaceNoV4.addressEntries.any
      (fun entry => exEnvTwoIfaces.isInSubnet exAddr4 entry.ip
        entry.prefixLength) = true ∧
    exIfaceNoV4.allAddresses.any (fun a => familyMatches a Mdns.A) = false ∧
    MdnsServer.generateRecordLoop exEnvTwoIfaces "laptop.local." exAddr4
        Mdns.A [exIfaceNoV4, exIfaceV4] =
      MdnsServer.generateRecordLoop exEnvTwoIfaces "laptop.local." exAddr4
        Mdns.A [exIfaceV4] :=
  ⟨by decide, by decide,
    C4_amended_search_continues exEnvTwoIfaces "laptop.local." exAddr4 Mdns.A
      exIfaceNoV4 [exIfaceV4] (by decide) (by decide)⟩

/-- Structure of any record produced by the interface loop: the requested
name and type, the default TTL, and the IP of the first subnet-matching
address entry of an interface (in the searched list) whose address set
contains an address of the requested family. -/
theorem generateRecordLoop_some (env : Env) (hostname : String)
    (address : QHostAddress) (type : Nat) :
    ∀ (ifaces : List QNetworkInterface) (r : MdnsRecord),
      MdnsServer.generateRecordLoop env hostname address type ifaces = some r →
      r.name = hostname ∧ r.type = type ∧ r.ttl = DefaultTtl ∧
      ∃ iface ∈ ifaces, ∃ entry,
        iface.addressEntries.find?
          (fun e => env.isInSubnet address e.ip e.prefixLength) = some entry ∧
        iface.allAddresses.any (fun a => familyMatches a type) = true ∧
        r.address = entry.ip := by
  intro ifaces
  induction ifaces with
  | nil => intro r hr; simp [MdnsServer.generateRecordLoop] at hr
  | cons iface rest ih =>
    intro r hr
    rw [MdnsServer.generateRecordLoop] at hr
    cases hfind : iface.addressEntries.find?
        (fun e => env.isInSubnet address e.ip e.prefixLength) with
    | none =>
      rw [hfind] at hr
      rcases ih r hr with ⟨h1, h2, h3, i, hi, entry, he, hf, ha⟩
      exact ⟨h1, h2, h3, i, List.mem_cons_of_mem _ hi, entry, he, hf, ha⟩
    | some entry =>
      rw [hfind] at hr
      have hr' : (if (iface.allAddresses.any fun a => familyMatches a type) =
            true
          then some { name := hostname, type := type, ttl := DefaultTtl,
                      address := entry.ip }
          else MdnsServer.generateRecordLoop env hostname address type rest) =
          some r := hr
      by_cases hfam :
        (iface.allAddresses.any fun a => familyMatches a type) = true
      · rw [if_pos hfam] at hr'
        injection hr' with hr'
        subst hr'
        exact ⟨rfl, rfl, rfl, iface, List.mem_cons_self _ _, entry, hfind,
          hfam, rfl⟩
      · rw [if_neg hfam] at hr'
        rcases ih r hr' with ⟨h1, h2, h3, i, hi, entry2, he, hf, ha⟩
        exact ⟨h1, h2, h3, i, List.mem_cons_of_mem _ hi, entry2, he, hf, ha⟩

/-- C6.  Whenever record generation succeeds, the produced record carries the
hostname it was asked for, the requested type, a TTL of 3600 seconds, and as
its address the IP of the subnet-matched address entry of the interface that
satisfied the family scan. -/
theorem C6_generated_record_shape (env : Env) (hostname : String)
    (address : QHostAddress) (type : Nat) (r : MdnsRecord)
    (h : MdnsServer.generateRecord env hostname address type = some r) :
    r.name = hostname ∧ r.type = type ∧ r.ttl = 3600 ∧
    ∃ iface ∈ env.allInterfaces, ∃ entry,
      iface.addressEntries.find?
        (fun e => env.isInSubnet address e.ip e.prefixLength) = some entry ∧
      iface.allAddresses.any (fun a => familyMatches a type) = true ∧
      r.address = entry.ip :=
  generateRecordLoop_some env hostname address type env.allInterfaces r h

/-- Witness for C6 at a concrete one-interface environment. -/
theorem C6_witness :
    MdnsServer.generateRecord exEnvOneIface "laptop.local." exAddr4 Mdns.A =
      some exRecord ∧
    (exRecord.name = "laptop.local." ∧ exRecord.type = Mdns.A ∧
      exRecord.ttl = 3600 ∧
      ∃ iface ∈ exEnvOneIface.allInterfaces, ∃ entry,
        iface.addressEntries.find?
          (fun e => exEnvOneIface.isInSubnet exAddr4 e.ip e.prefixLength) =
            some entry ∧
        iface.allAddresses.any (fun a => familyMatches a Mdns.A) = true ∧
        exRecord.address = entry.ip) :=
  ⟨by decide,
    C6_generated_record_shape exEnvOneIface "laptop.local." exAddr4 Mdns.A
      exRecord (by decide)⟩

/-- A conflicting datagram received while probing renames the candidate to
`<localname>-<suffix>.local.` and post-increments the suffix, leaving every
other member variable unchanged. -/
theorem onReadyRead_conflict_step (env : Env) (s : ServerState)
    (m : MdnsMessage) (a : QHostAddress) (p : Nat)
    (h0 : s.mHostnameConfirmed = false)
    (h1 : isConflict s.mHostname m = true) :
    (MdnsServer.onReadyRead env s m a p).1 =
      { s with
        mHostname := env.localHostName ++ "-" ++
          toString s.mHostnameSuffix ++ ".local.",
        mHostnameSuffix := s.mHostnameSuffix + 1 } := by
  have htag : ∀ pr : Mdns.Protocol, isConflict s.mHostname
      { m with address := a, protocol := pr, port := p } =
        isConflict s.mHostname m := fun pr => rfl
  simp [MdnsServer.onReadyRead, h0, htag, h1]

/-- Processing a run of conflicts keeps the server probing, adds the number
of conflicts to the suffix, and (when the run is nonempty) leaves a hostname
of the shape `<localname>-<n>.local.` where `n + 1` is the final suffix. -/
theorem processDatagrams_conflicts (env : Env) :
    ∀ (ds : List (MdnsMessage × QHostAddress × Nat)) (s : ServerState),
      s.mHostnameConfirmed = false →
      allConflicts env s ds = true →
      (MdnsServer.processDatagrams env s ds).mHostnameConfirmed = false ∧
      (MdnsServer.processDatagrams env s ds).mHostnameSuffix =
        s.mHostnameSuffix + ds.length ∧
      (ds ≠ [] → ∃ n,
        (MdnsServer.processDatagrams env s ds).mHostname =
          env.localHostName ++ "-" ++ toString n ++ ".local." ∧
        n + 1 = (MdnsServer.processDatagrams env s ds).mHostnameSuffix) := by
  intro ds
  induction ds with
  | nil =>
    intro s h0 _
    exact ⟨h0, rfl, fun h => absurd rfl h⟩
  | cons d rest ih =>
    obtain ⟨m, a, p⟩ := d
    intro s h0 hc
    rw [allConflicts] at hc
    simp only [Bool.and_eq_true] at hc
    obtain ⟨h1, h2⟩ := hc
    have hstep := onReadyRead_conflict_step env s m a p h0 h1
    have hpd : MdnsServer.processDatagrams env s ((m, a, p) :: rest) =
        MdnsServer.processDatagrams env
          (MdnsServer.onReadyRead env s m a p).1 rest := rfl
    obtain ⟨ih1, ih2, ih3⟩ := ih _ (by rw [hstep]; exact h0) h2
    refine ⟨by rw [hpd]; exact ih1,
      by rw [hpd, ih2, hstep]; simp; omega, ?_⟩
    intro _
    cases rest with
    | nil =>
      refine ⟨s.mHostnameSuffix, ?_, ?_⟩ <;> rw [hpd, hstep] <;> rfl
    | cons r rest2 =>
      obtain ⟨n, hn1, hn2⟩ := ih3 (by simp)
      exact ⟨n, by rw [hpd]; exact hn1, by rw [hpd]; exact hn2⟩

/-- C1.  Starting from the probing state set up by the rebind cycle (suffix
2, unconfirmed), any nonempty run of N conflict responses — each one a
conflict for the candidate current when it arrives, with no intervening
rebind cycle — leaves the candidate hostname exactly
`<localname>-<N+1>.local.`, and the suffix grows by exactly one per
conflicting message regardless of how many disqualifying records each
message carries. -/
theorem C1_candidate_after_n_conflicts (env : Env) (s : ServerState)
    (ds : List (MdnsMessage × QHostAddress × Nat))
    (h0 : s.mHostnameConfirmed = false)
    (h2 : s.mHostnameSuffix = 2)
    (hc : allConflicts env s ds = true)
    (hne : ds ≠ []) :
    (MdnsServer.processDatagrams env s ds).mHostname =
      env.localHostName ++ "-" ++ toString (ds.length + 1) ++ ".local." ∧
    (MdnsServer.processDatagrams env s ds).mHostnameSuffix = ds.length + 2 := by
  obtain ⟨hcf, hsuf, hname⟩ := processDatagrams_conflicts env ds s h0 hc
  obtain ⟨n, hn1, hn2⟩ := hname hne
  rw [hsuf, h2] at hn2
  have hn : n = ds.length + 1 := by omega
  subst hn
  exact ⟨hn1, by rw [hsuf, h2]; omega⟩

/-- Witness for C1: two conflicts — the second message carrying two
disqualifying records — rename `laptop.local.` to `laptop-3.local.` with
final suffix 4. -/
theorem C1_witness :
    exProbing.mHostnameConfirmed = false ∧
    exProbing.mHostnameSuffix = 2 ∧
    allConflicts exEnvEmpty exProbing exConflicts = true ∧
    exConflicts ≠ [] ∧
    (MdnsServer.processDatagrams exEnvEmpty exProbing exConflicts).mHostname =
      "laptop" ++ "-" ++ toString (exConflicts.length + 1) ++ ".local." ∧
    (MdnsServer.processDatagrams exEnvEmpty exProbing
      exConflicts).mHostnameSuffix = exConflicts.length + 2 :=
  ⟨rfl, rfl, by decide, by decide,
    (C1_candidate_after_n_conflicts exEnvEmpty exProbing exConflicts rfl rfl
      (by decide) (by decide)).1,
    (C1_candidate_after_n_conflicts exEnvEmpty exProbing exConflicts rfl rfl
      (by decide) (by decide)).2⟩

/-- The query-responder sends something for a non-response message exactly
when a requested record generation succeeds: scanning the queries for the
hostname with type A (resp. AAAA) and generating that record from the
source address. -/
theorem onMessageReceived_ne_nil (env : Env) (s : ServerState)
    (message : MdnsMessage) (hr : message.isResponse = false) :
    MdnsServer.onMessageReceived env s message ≠ [] ↔
      ((message.queries.any
          (fun q => q.name == s.mHostname && q.type == Mdns.A)) = true ∧
        MdnsServer.generateRecord env s.mHostname message.address Mdns.A ≠
          none) ∨
      ((message.queries.any
          (fun q => q.name == s.mHostname && q.type == Mdns.AAAA)) = true ∧
        MdnsServer.generateRecord env s.mHostname message.address Mdns.AAAA ≠
          none) := by
  by_cases hqa : (message.queries.any
      (fun q => q.name == s.mHostname && q.type == Mdns.A)) = true <;>
  by_cases hqb : (message.queries.any
      (fun q => q.name == s.mHostname && q.type == Mdns.AAAA)) = true <;>
  cases hga : MdnsServer.generateRecord env s.mHostname message.address
    Mdns.A <;>
  cases hgb : MdnsServer.generateRecord env s.mHostname message.address
    Mdns.AAAA <;>
  simp [MdnsServer.onMessageReceived, MdnsMessage.reply, hr, hqa, hqb, hga,
    hgb, sendMessage_ne_nil]

/-- C7.  Once confirmed, for every inbound non-response datagram a reply is
sent if and only if at least one of the requested record generations (A or
AAAA for the confirmed hostname, from the datagram's source address)
succeeds; with no matching query or with every generation failing, no
message is sent at all. -/
theorem C7_reply_iff_generation_succeeds (env : Env) (s : ServerState)
    (m : MdnsMessage) (a : QHostAddress) (p : Nat)
    (hc : s.mHostnameConfirmed = true)
    (hr : m.isResponse = false) :
    (MdnsServer.step env s (Event.inboundDatagram m a p)).2 ≠ [] ↔
      ((m.queries.any
          (fun q => q.name == s.mHostname && q.type == Mdns.A)) = true ∧
        MdnsServer.generateRecord env s.mHostname a Mdns.A ≠ none) ∨
      ((m.queries.any
          (fun q => q.name == s.mHostname && q.type == Mdns.AAAA)) = true ∧
        MdnsServer.generateRecord env s.mHostname a Mdns.AAAA ≠ none) := by
  have hstep : (MdnsServer.step env s (Event.inboundDatagram m a p)).2 =
      MdnsServer.onMessageReceived env s
        { m with
          address := a,
          protocol := if a.protocol == NetworkLayerProtocol.IPv4Protocol
            then Mdns.Protocol.IPv4 else Mdns.Protocol.IPv6,
          port := p } := by
    simp [MdnsServer.step, MdnsServer.onReadyRead, hc]
  rw [hstep]
  exact onMessageReceived_ne_nil env s _ hr

/-- Witness for C7: a query for the confirmed hostname's A record from a
querier inside the known interface's subnet yields a reply. -/
theorem C7_witness :
    exConfirmed.mHostnameConfirmed = true ∧
    exQueryMsg.isResponse = false ∧
    ((MdnsServer.step exEnvOneIface exConfirmed
        (Event.inboundDatagram exQueryMsg exAddr4 5353)).2 ≠ [] ↔
      ((exQueryMsg.queries.any
          (fun q => q.name == exConfirmed.mHostname && q.type == Mdns.A)) =
            true ∧
        MdnsServer.generateRecord exEnvOneIface exConfirmed.mHostname exAddr4
          Mdns.A ≠ none) ∨
      ((exQueryMsg.queries.any
          (fun q => q.name == exConfirmed.mHostname && q.type == Mdns.AAAA)) =
            true ∧
        MdnsServer.generateRecord exEnvOneIface exConfirmed.mHostname exAddr4
          Mdns.AAAA ≠ none)) :=
  ⟨rfl, rfl,
    C7_reply_iff_generation_succeeds exEnvOneIface exConfirmed exQueryMsg
      exAddr4 5353 rfl rfl⟩

/-- C10.  A rebind cycle in which at least one socket ends up bound, run
while the hostname is unconfirmed, resets the candidate to
`<localname>.local.`, resets the suffix to 2 (discarding any accumulated
suffix), and restarts the 2 s probe timer; run once confirmed, it leaves the
hostname and suffix unchanged. -/
theorem C10_rebind_cycle (env : Env) (s : ServerState) :
    (s.mHostnameConfirmed = false →
      ((s.mIpv4Bound || env.ipv4BindSucceeds) = true ∨
        (s.mIpv6Bound || env.ipv6BindSucceeds) = true) →
      (MdnsServer.onSocketTimeout env s).1.mHostname =
        env.localHostName ++ ".local." ∧
      (MdnsServer.onSocketTimeout env s).1.mHostnameSuffix = 2 ∧
      Effect.startHostnameTimer (2 * 1000) ∈
        (MdnsServer.onSocketTimeout env s).2) ∧
    (s.mHostnameConfirmed = true →
      (MdnsServer.onSocketTimeout env s).1.mHostname = s.mHostname ∧
      (MdnsServer.onSocketTimeout env s).1.mHostnameSuffix =
        s.mHostnameSuffix) := by
  constructor
  · intro h0 hb
    have hbound : (s.mIpv4Bound || env.ipv4BindSucceeds ||
        (s.mIpv6Bound || env.ipv6BindSucceeds)) = true := by
      rcases hb with hb | hb <;> simp [hb]
    simp [MdnsServer.onSocketTimeout, h0, hbound]
  · intro h1
    simp only [MdnsServer.onSocketTimeout, h1]
    split
    · simp
    · exact ⟨rfl, rfl⟩

/-- Witness for C10 at a concrete unconfirmed state with a successful
bind. -/
theorem C10_witness :
    exProbing.mHostnameConfirmed = false ∧
    (exProbing.mIpv4Bound || exEnvEmpty.ipv4BindSucceeds) = true ∧
    (MdnsServer.onSocketTimeout exEnvEmpty exProbing).1.mHostname =
      "laptop" ++ ".local." ∧
    (MdnsServer.onSocketTimeout exEnvEmpty exProbing).1.mHostnameSuffix = 2 ∧
    Effect.startHostnameTimer (2 * 1000) ∈
      (MdnsServer.onSocketTimeout exEnvEmpty exProbing).2 :=
  ⟨rfl, rfl,
    ((C10_rebind_cycle exEnvEmpty exProbing).1 rfl (Or.inl rfl)).1,
    ((C10_rebind_cycle exEnvEmpty exProbing).1 rfl (Or.inl rfl)).2.1,
    ((C10_rebind_cycle exEnvEmpty exProbing).1 rfl (Or.inl rfl)).2.2⟩
